import Mathlib

/-!
Shallow embedding of the placeholder / dependency model of the
loe-document-generation-poc repository (two Streamlit source files:
`document-upload-parse.py` and `dynamic-form-generation.py`).

The embedded functions follow the Python source.  Python values that can
appear in the form-data value map (`None`, strings, lists, booleans,
numbers) are modelled by the inductive type `Val`; the numeric values the
app produces are modelled as integers (only comparison with zero matters
for any of the checks below).  Sequence values are modelled as lists of
strings, the only sequence shape the app produces.
-/

namespace LoeDoc

/-- Python values stored in the form-data value map. -/
inductive Val where
  | none
  | str (s : String)
  | list (l : List String)
  | bool (b : Bool)
  | int (n : Int)

/-- Python equality `==` restricted to the value shapes of `Val`.
Cross-type comparisons are `False` in Python except that `bool` is an
`int` subclass, so `True == 1` and `False == 0`. -/
def pyEq : Val → Val → Bool
  | Val.none, Val.none => true
  | Val.str a, Val.str b => a == b
  | Val.list a, Val.list b => a == b
  | Val.bool a, Val.bool b => a == b
  | Val.int a, Val.int b => a == b
  | Val.bool a, Val.int b => (if a then (1 : Int) else 0) == b
  | Val.int a, Val.bool b => a == (if b then (1 : Int) else 0)
  | _, _ => false

/-- Python truth-value coercion `bool(v)` for the shapes of `Val`
(used by the source in `not form_data.get(...)` and `if dependent_on:`). -/
def pyBool : Val → Bool
  | Val.none => false
  | Val.str s => !(s == "")
  | Val.list l => !l.isEmpty
  | Val.bool b => b
  | Val.int n => !(n == 0)

/-- The membership test `parent_value not in [None, "", [], False]` from
`should_show_field` / `is_field_required` in both source files.
Python `in` compares with `==`, so `0 == False` makes integer zero fail
this test. -/
def isFilled (v : Val) : Bool :=
  !(pyEq v Val.none || pyEq v (Val.str "") || pyEq v (Val.list []) || pyEq v (Val.bool false))

/-- The characters of the Python call `.strip("$\x7b\x7d")`. -/
def isDelim (c : Char) : Bool :=
  c == '$' || c == '{' || c == '}'

/-- Python `str.strip(chars)` on a character list: remove every leading
and every trailing character satisfying `p`. -/
def stripChars (p : Char → Bool) (l : List Char) : List Char :=
  ((l.dropWhile p).reverse.dropWhile p).reverse

/-- `key.strip("$\x7b\x7d")`: the placeholder-name normalization used at
every form-data boundary in both source files. -/
def pyStrip (s : String) : String :=
  String.mk (stripChars isDelim s.data)

/-- Python `str.strip()` with no argument (whitespace strip), as applied
to the LLM response content. -/
def stripWS (s : String) : String :=
  String.mk (stripChars Char.isWhitespace s.data)

/-- The stored `dependent_on` entry of a field configuration: absent
(`None`), a single string, or a list of strings (the multiselect form). -/
inductive Dep where
  | none
  | str (s : String)
  | list (l : List String)
deriving DecidableEq

/-- Python truthiness of the stored `dependent_on` value, as used by the
guards `if not dependent_on` / `if dependent_on:` in the source. -/
def depBool : Dep → Bool
  | Dep.none => false
  | Dep.str s => !(s == "")
  | Dep.list l => !l.isEmpty

/-- `dependent_on[0] if isinstance(dependent_on, list) else dependent_on`
from `document-upload-parse.py`.  Only evaluated under the `depBool`
guard, which rules out the `Dep.none` and empty-list cases. -/
def depParent : Dep → String
  | Dep.none => ""
  | Dep.str s => s
  | Dep.list l => l.headD ""

/-- One field configuration: the `type` / `required` / `is_conditional` /
`dependent_on` record stored per placeholder. -/
structure FieldInfo where
  type : String
  required : Bool
  is_conditional : Bool
  dependent_on : Dep
deriving DecidableEq

/-- The form-data value map: placeholder name to current value,
insertion-ordered with unique keys (a Python dict). -/
abbrev ValueMap := List (String × Val)

/-- The placeholders registry: placeholder name to field configuration,
insertion-ordered (a Python dict). -/
abbrev Registry := List (String × FieldInfo)

/-- `form_data.get(key, None)` / `form_data.get(key)`: defaulting
dictionary lookup, `None` when the key is absent. -/
def getD (m : ValueMap) (k : String) : Val :=
  match m.find? (fun kv => kv.1 == k) with
  | some kv => kv.2
  | Option.none => Val.none

/-- `should_show_field(field_name, field_info, form_data)` from
`document-upload-parse.py` (lines 173-179).  The variant in
`dynamic-form-generation.py` is the same code restricted to a string
`dependent_on`. -/
def should_show_field (_field_name : String) (field_info : FieldInfo)
    (form_data : ValueMap) : Bool :=
  if !field_info.is_conditional || !depBool field_info.dependent_on then
    true
  else
    isFilled (getD form_data (pyStrip (depParent field_info.dependent_on)))

/-- `is_field_required(field_name, field_info, form_data)` from
`document-upload-parse.py` (lines 181-190); the nested `return True`
fall-throughs of the Python are collapsed into the `else` branches. -/
def is_field_required (_field_name : String) (field_info : FieldInfo)
    (form_data : ValueMap) : Bool :=
  if field_info.required then
    if field_info.is_conditional && depBool field_info.dependent_on then
      isFilled (getD form_data (pyStrip (depParent field_info.dependent_on)))
    else
      true
  else
    false

/-- The list comprehension building `missing_fields` in `validate_form`
(both source files): names of fields that are `is_field_required` and
whose (stripped-name) value-map entry fails Python truthiness. -/
def validate_missing (form_data : ValueMap) (placeholders : Registry) : List String :=
  placeholders.filterMap (fun nf =>
    if is_field_required nf.1 nf.2 form_data && !pyBool (getD form_data (pyStrip nf.1)) then
      some (pyStrip nf.1)
    else
      Option.none)

/-- `validate_form(form_data, placeholders)`: `False` when
`missing_fields` is non-empty, `True` otherwise. -/
def validate_form (form_data : ValueMap) (placeholders : Registry) : Bool :=
  (validate_missing form_data placeholders).isEmpty

/-- The session state touched by a validation call: the registry and the
form-data value map. -/
structure SessionState where
  placeholders : Registry
  form_data : ValueMap

/-- `validate_form` as a state-threading step: the source reads
`form_data` and `placeholders`, emits an error message when fields are
missing, and returns the boolean; it performs no assignment to either
mapping, which the returned state records. -/
def validate_form_step (s : SessionState) : SessionState × List String × Bool :=
  let missing_fields := validate_missing s.form_data s.placeholders
  if missing_fields.isEmpty then
    (s, [], true)
  else
    (s, ["Please fill in all required fields: " ++ String.intercalate ", " missing_fields], false)

/-- `clean_up_document_with_llm(original_text, filled_data)` (both source
files).  The external OpenAI call is modelled by its outcome
`llm_response`: `Except.ok content` when the call returns content,
`Except.error e` when it raises.  On success the source returns
`response.choices[0].message.content.strip()`; on any exception it shows
a warning and returns `original_text`. -/
def clean_up_document_with_llm (original_text : String) (_filled_data : ValueMap)
    (llm_response : Except String String) : String :=
  match llm_response with
  | Except.ok content => stripWS content
  | Except.error _ => original_text

/-- Helper for the regex scan: given the text right after an opening
`$\x7b`, find the next closing brace, returning the captured characters
and the rest of the text after the brace.  Mirrors the lazy group
`(.*?)` of the pattern: `.` does not match a newline, so the match fails
when a newline (or the end of text) comes before a closing brace. -/
def findClose : List Char → Option (List Char × List Char)
  | [] => Option.none
  | c :: rest =>
    if c = '}' then
      some ([], rest)
    else if c = '\n' then
      Option.none
    else
      match findClose rest with
      | some (cap, r) => some (c :: cap, r)
      | Option.none => Option.none

/-- Fuel-indexed scan implementing `re.findall` for the pattern used by
`extract_placeholders`: at each position, if the text starts with the
two delimiter characters and a closing brace follows on the same line,
emit the capture and continue after the match; otherwise advance one
character (as the regex engine advances its start position). -/
def goFind : Nat → List Char → List (List Char)
  | 0, _ => []
  | _, [] => []
  | fuel + 1, '$' :: '{' :: rest =>
    match findClose rest with
    | some (cap, r) => cap :: goFind fuel r
    | Option.none => goFind fuel ('{' :: rest)
  | fuel + 1, _ :: rest => goFind fuel rest

/-- All captures of the placeholder pattern over a text, in match order
(the input of the `set(...)` call in `extract_placeholders`). -/
def findall_placeholders (text : String) : List String :=
  (goFind text.data.length text.data).map (fun cs => String.mk cs)

/-- `ys` is a possible listing of `list(set(xs))`: duplicate-free and
containing exactly the members of `xs`.  Python set iteration order is
hash-dependent, so the source constrains its output no further than
this. -/
def IsSetListing (xs ys : List String) : Prop :=
  ys.Nodup ∧ (∀ a ∈ xs, a ∈ ys) ∧ (∀ a ∈ ys, a ∈ xs)

/-- The option list offered by the dependency multiselect in the partner
tab configuration loop: every known placeholder name except the field
itself (`[p for p in all_placeholders_list if p != ph]`). -/
def dependencyOptions (allNames : List String) (ph : String) : List String :=
  allNames.filter (fun p => p != ph)

/-- One pass of the partner-tab configuration loop body for a single
placeholder: the widget selections are written into the settings record;
`dependent_on` is reassigned (to the multiselect selection) only when
the conditional checkbox is set. -/
def configurePlaceholder (old : FieldInfo) (selType : String)
    (selRequired selConditional : Bool) (selDeps : List String) : FieldInfo :=
  { type := selType
    required := selRequired
    is_conditional := selConditional
    dependent_on := if selConditional then Dep.list selDeps else old.dependent_on }

/-- The registry after the configuration loop updates placeholder `ph`
with the given widget selections (the Python mutates the settings dict
in place inside `st.session_state.placeholders`). -/
def setPlaceholderConfig (reg : Registry) (ph : String) (selType : String)
    (selRequired selConditional : Bool) (selDeps : List String) : Registry :=
  reg.map (fun e => if e.1 == ph then (e.1, configurePlaceholder e.2 selType selRequired selConditional selDeps) else e)

/-- The default configuration `extract_placeholders` seeds for every
extracted name. -/
def defaultConfig : FieldInfo :=
  { type := "Text", required := false, is_conditional := false, dependent_on := Dep.list [] }

/-- Modelled from the spec: the truthiness predicate exactly as claim C1
words it - not absent, not an empty string, not an empty sequence, not
boolean false, with numeric zero and the string "0" both truthy. -/
def claimTruthy : Val → Bool
  | Val.none => false
  | Val.str s => !(s == "")
  | Val.list l => !l.isEmpty
  | Val.bool b => b
  | Val.int _ => true

/-- Modelled from the spec, as amended: truthiness with numeric zero
falsy (Python compares `0 == False` inside the membership test); the
string "0" remains truthy. -/
def amendedTruthy : Val → Bool
  | Val.none => false
  | Val.str s => !(s == "")
  | Val.list l => !l.isEmpty
  | Val.bool b => b
  | Val.int n => !(n == 0)

/-- The registry of the validation scenario in spec section 8. -/
def janeReg : Registry :=
  [("full-name", { type := "Text", required := true, is_conditional := false, dependent_on := Dep.list [] }),
   ("has-children", { type := "Checkbox", required := false, is_conditional := false, dependent_on := Dep.list [] }),
   ("children-names", { type := "Text", required := true, is_conditional := true, dependent_on := Dep.str "has-children" })]

/-- The value map of the failing validation scenario in spec section 8. -/
def janeFD : ValueMap :=
  [("full-name", Val.str "Jane Doe"), ("has-children", Val.bool true), ("children-names", Val.str "")]

/-- Input text for the extraction-order analysis: the name beta occurs
first and third, alpha second. -/
def orderText : String :=
  "$\x7bbeta\x7d $\x7balpha\x7d $\x7bbeta\x7d"

/-! ## Helper lemmas -/

/-- The two inline Python truthiness checks of the source - the
membership test of the visibility functions and the `not ...` coercion
of `validate_form` - agree on every value shape. -/
theorem isFilled_eq_pyBool (v : Val) : isFilled v = pyBool v := by
  cases v with
  | none => rfl
  | str s => simp [isFilled, pyEq, pyBool]
  | list l => cases l <;> simp [isFilled, pyEq, pyBool, List.isEmpty]
  | bool b => cases b <;> rfl
  | int n => simp [isFilled, pyEq, pyBool]

/-- The membership test agrees with the spec-worded amended truthiness
predicate. -/
theorem isFilled_eq_amendedTruthy (v : Val) : isFilled v = amendedTruthy v := by
  cases v with
  | none => rfl
  | str s => simp [isFilled, pyEq, amendedTruthy]
  | list l => cases l <;> simp [isFilled, pyEq, amendedTruthy, List.isEmpty]
  | bool b => cases b <;> rfl
  | int n => simp [isFilled, pyEq, amendedTruthy]

/-- A guarded `filterMap` is a `filter` followed by a `map`. -/
theorem filterMap_guard_eq_map_filter {α β : Type} (p : α → Bool) (f : α → β)
    (l : List α) :
    (l.filterMap (fun x => if p x then some (f x) else Option.none)) =
      (l.filter p).map f := by
  induction l with
  | nil => rfl
  | cons a t ih =>
    by_cases h : p a <;> simp [List.filterMap_cons, List.filter_cons, h, ih]

/-- Dropping while `p` holds ignores a prefix made of characters
satisfying `p`. -/
theorem dropWhile_append_all (p : Char → Bool) :
    ∀ (pre l : List Char), pre.all p = true → (pre ++ l).dropWhile p = l.dropWhile p := by
  intro pre
  induction pre with
  | nil => intro l _; rfl
  | cons a t ih =>
    intro l h
    simp only [List.all_cons, Bool.and_eq_true] at h
    simp [List.dropWhile_cons, h.1, ih l h.2]

/-- Stripping ignores an all-delimiter prefix. -/
theorem stripChars_append_all_left (p : Char → Bool) (pre l : List Char)
    (h : pre.all p = true) : stripChars p (pre ++ l) = stripChars p l := by
  simp [stripChars, dropWhile_append_all p pre l h]

/-- Stripping ignores an all-delimiter suffix. -/
theorem stripChars_append_all_right (p : Char → Bool) (l post : List Char)
    (h : post.all p = true) : stripChars p (l ++ post) = stripChars p l := by
  unfold stripChars
  rw [List.dropWhile_append]
  by_cases he : (l.dropWhile p).isEmpty
  · have hl : l.dropWhile p = [] := by
      cases hll : l.dropWhile p with
      | nil => rfl
      | cons a t => rw [hll] at he; simp [List.isEmpty] at he
    have hpost : post.dropWhile p = [] := by
      rw [List.dropWhile_eq_nil_iff]
      intro x hx
      exact (List.all_eq_true.mp h) x hx
    simp [he, hl, hpost]
  · rw [if_neg he]
    rw [List.reverse_append]
    rw [dropWhile_append_all p post.reverse (l.dropWhile p).reverse
      (by rw [List.all_reverse]; exact h)]

/-- The head surviving a `dropWhile` does not satisfy the predicate. -/
theorem head_dropWhile_not (p : Char → Bool) :
    ∀ (l : List Char) (c : Char), (l.dropWhile p).head? = some c → p c = false := by
  intro l
  induction l with
  | nil => intro c h; simp at h
  | cons a t ih =>
    intro c h
    by_cases hp : p a
    · rw [List.dropWhile_cons, if_pos hp] at h
      exact ih c h
    · rw [List.dropWhile_cons, if_neg hp] at h
      simp only [List.head?_cons, Option.some.injEq] at h
      subst h
      cases hpa : p a with
      | false => rfl
      | true => exact absurd hpa hp

/-- Characterization of `stripChars`: the result is the input with an
all-delimiter prefix and suffix removed, maximally (its boundary
characters, when present, are not delimiters). -/
theorem stripChars_spec (p : Char → Bool) (l : List Char) :
    ∃ pre post, l = pre ++ stripChars p l ++ post ∧ pre.all p = true ∧
      post.all p = true ∧
      (∀ c, (stripChars p l).head? = some c → p c = false) ∧
      (∀ c, (stripChars p l).getLast? = some c → p c = false) := by
  have hsplit : l.dropWhile p = stripChars p l ++ ((l.dropWhile p).reverse.takeWhile p).reverse := by
    conv_lhs => rw [← List.reverse_reverse (l.dropWhile p),
      ← List.takeWhile_append_dropWhile (p := p) (l := (l.dropWhile p).reverse)]
    rw [List.reverse_append]
    rfl
  refine ⟨l.takeWhile p, ((l.dropWhile p).reverse.takeWhile p).reverse, ?_, ?_, ?_, ?_, ?_⟩
  · conv_lhs => rw [← List.takeWhile_append_dropWhile (p := p) (l := l), hsplit]
    rw [List.append_assoc]
  · rw [List.all_eq_true]
    intro x hx
    exact List.mem_takeWhile_imp hx
  · rw [List.all_reverse, List.all_eq_true]
    intro x hx
    exact List.mem_takeWhile_imp hx
  · intro c hc
    cases hs : stripChars p l with
    | nil => rw [hs] at hc; simp at hc
    | cons d ds =>
      rw [hs] at hc
      simp only [List.head?_cons, Option.some.injEq] at hc
      subst hc
      refine head_dropWhile_not p l _ ?_
      rw [hsplit, hs]
      rfl
  · intro c hc
    refine head_dropWhile_not p (l.dropWhile p).reverse c ?_
    rw [← List.getLast?_reverse]
    exact hc

/-- String concatenation concatenates the underlying character lists. -/
theorem data_append (s t : String) : (s ++ t).data = s.data ++ t.data := by
  cases s
  cases t
  rfl

/-! ## Claims -/

/-- C1, counterexample: the claim declares numeric zero truthy, but the
membership test of the source compares `0 == False`, so a conditional
field whose dependency currently holds the number `0` is hidden. -/
theorem C1_counterexample :
    claimTruthy (Val.int 0) = true ∧
      should_show_field "children-names"
        { type := "Text", required := false, is_conditional := true,
          dependent_on := Dep.str "has-children" }
        [("has-children", Val.int 0)] = false := by
  exact ⟨rfl, rfl⟩

/-- C1, amended: `should_show_field` returns true when the field is not
conditional or its dependency is unset; when conditional with a
dependency it returns the truthiness of the current value of the
dependency, where numeric zero is falsy (Python compares `0 == False`
inside the membership test) and the string "0" is truthy. -/
theorem C1_visibility_amended (nm : String) (info : FieldInfo) (fd : ValueMap) :
    should_show_field nm info fd =
      (if info.is_conditional && depBool info.dependent_on then
        amendedTruthy (getD fd (pyStrip (depParent info.dependent_on)))
      else
        true) := by
  cases hc : info.is_conditional <;> cases hd : depBool info.dependent_on <;>
    simp [should_show_field, hc, hd, isFilled_eq_amendedTruthy]

/-- C2: a field is effectively required exactly when its required flag is
set and it is visible; `is_field_required` equals the conjunction of the
required flag with `should_show_field` on the same arguments. -/
theorem C2_required_eq_required_and_visible (nm : String) (info : FieldInfo)
    (fd : ValueMap) :
    is_field_required nm info fd = (info.required && should_show_field nm info fd) := by
  cases hr : info.required <;> cases hc : info.is_conditional <;>
    cases hd : depBool info.dependent_on <;>
      simp [is_field_required, should_show_field, hr, hc, hd]

/-- C3: the missing list of `validate_form` contains exactly the
stripped names of the registry entries that are effectively required and
whose value-map entry is not truthy, in registry order; the result is
true exactly when that list is empty; and the section-8 scenario (Jane
Doe with `has-children` true and `children-names` empty) fails with
missing = children-names. -/
theorem C3_validate_characterization (fd : ValueMap) (ps : Registry) :
    (validate_form fd ps = true ↔ validate_missing fd ps = []) ∧
    validate_missing fd ps =
      ((ps.filter (fun nf =>
          is_field_required nf.1 nf.2 fd && !isFilled (getD fd (pyStrip nf.1)))).map
        (fun nf => pyStrip nf.1)) ∧
    (validate_form janeFD janeReg = false ∧
      validate_missing janeFD janeReg = ["children-names"]) := by
  refine ⟨?_, ?_, by decide, by decide⟩
  · simp [validate_form, List.isEmpty_iff]
  · have hpred : (fun nf : String × FieldInfo =>
        is_field_required nf.1 nf.2 fd && !pyBool (getD fd (pyStrip nf.1))) =
        (fun nf : String × FieldInfo =>
          is_field_required nf.1 nf.2 fd && !isFilled (getD fd (pyStrip nf.1))) := by
      funext nf
      rw [isFilled_eq_pyBool]
    calc validate_missing fd ps
        = ps.filterMap (fun nf =>
            if is_field_required nf.1 nf.2 fd && !pyBool (getD fd (pyStrip nf.1)) then
              some (pyStrip nf.1)
            else Option.none) := rfl
      _ = ((ps.filter (fun nf =>
            is_field_required nf.1 nf.2 fd && !pyBool (getD fd (pyStrip nf.1)))).map
          (fun nf => pyStrip nf.1)) := filterMap_guard_eq_map_filter _ _ ps
      _ = ((ps.filter (fun nf =>
            is_field_required nf.1 nf.2 fd && !isFilled (getD fd (pyStrip nf.1)))).map
          (fun nf => pyStrip nf.1)) := by rw [hpred]

/-- C3 witness: the characterization instantiated at the section-8
scenario inputs. -/
theorem C3_witness :
    (validate_form janeFD janeReg = true ↔ validate_missing janeFD janeReg = []) :=
  (C3_validate_characterization janeFD janeReg).1

/-- C6: when the external LLM call fails with any error, the document
cleanup returns the original text unchanged instead of propagating the
failure. -/
theorem C6_llm_failure_returns_original (orig : String) (fd : ValueMap) (err : String) :
    clean_up_document_with_llm orig fd (Except.error err) = orig := rfl

/-- C7: a validation call leaves the session state (registry and
form-data value map) exactly as it was, and its boolean outcome is the
pure function of the two mappings. -/
theorem C7_validate_pure (s : SessionState) :
    (validate_form_step s).1 = s ∧
      (validate_form_step s).2.2 = validate_form s.form_data s.placeholders := by
  by_cases h : (validate_missing s.form_data s.placeholders).isEmpty = true <;>
    simp [validate_form_step, validate_form, h]

/-- C8: with a non-empty dependency list, visibility and requiredness
consult only the first listed dependency; replacing the tail of the list
never changes either result. -/
theorem C8_only_first_dependency (nm t : String) (r c : Bool) (x : String)
    (xs ys : List String) (fd : ValueMap) :
    should_show_field nm
        { type := t, required := r, is_conditional := c, dependent_on := Dep.list (x :: xs) } fd =
      should_show_field nm
        { type := t, required := r, is_conditional := c, dependent_on := Dep.list (x :: ys) } fd ∧
    is_field_required nm
        { type := t, required := r, is_conditional := c, dependent_on := Dep.list (x :: xs) } fd =
      is_field_required nm
        { type := t, required := r, is_conditional := c, dependent_on := Dep.list (x :: ys) } fd := by
  constructor <;>
    simp [should_show_field, is_field_required, depBool, depParent, List.isEmpty]

/-- C9: a conditional field whose (set) dependency has no entry in the
value map is hidden and never required; the lookup is total through the
defaulting `get`, yielding `None`, which is not filled. -/
theorem C9_dangling_dependency_hidden (nm : String) (info : FieldInfo) (fd : ValueMap)
    (hc : info.is_conditional = true) (hd : depBool info.dependent_on = true)
    (hmiss : fd.find? (fun kv => kv.1 == pyStrip (depParent info.dependent_on)) = Option.none) :
    should_show_field nm info fd = false ∧ is_field_required nm info fd = false := by
  have hget : getD fd (pyStrip (depParent info.dependent_on)) = Val.none := by
    simp [getD, hmiss]
  constructor
  · simp [should_show_field, hc, hd, hget, isFilled, pyEq]
  · cases hr : info.required <;>
      simp [is_field_required, hr, hc, hd, hget, isFilled, pyEq]

/-- C9 witness: a required conditional field depending on a name absent
from an empty value map is hidden and not required. -/
theorem C9_witness :
    should_show_field "children-names"
        { type := "Text", required := true, is_conditional := true,
          dependent_on := Dep.str "has-children" } [] = false ∧
      is_field_required "children-names"
        { type := "Text", required := true, is_conditional := true,
          dependent_on := Dep.str "has-children" } [] = false :=
  C9_dangling_dependency_hidden "children-names"
    { type := "Text", required := true, is_conditional := true,
      dependent_on := Dep.str "has-children" } []
    rfl (by decide) rfl

/-- C4, counterexample: the configuration loop persists an
`is_conditional = true` setting with an empty dependency list into the
registry (first conjunct), and persists a two-field dependency cycle
(second conjunct); no failure occurs and the registry does change,
contrary to the claim that such configurations fail with
InvalidDependency and are never persisted. -/
theorem C4_counterexample :
    setPlaceholderConfig [("a", defaultConfig), ("b", defaultConfig)] "b" "Text" false true [] =
      [("a", defaultConfig),
       ("b", { type := "Text", required := false, is_conditional := true,
               dependent_on := Dep.list [] })] ∧
    setPlaceholderConfig
        (setPlaceholderConfig [("a", defaultConfig), ("b", defaultConfig)]
          "a" "Text" false true ["b"])
        "b" "Text" false true ["a"] =
      [("a", { type := "Text", required := false, is_conditional := true,
               dependent_on := Dep.list ["b"] }),
       ("b", { type := "Text", required := false, is_conditional := true,
               dependent_on := Dep.list ["a"] })] := by
  decide

/-- C4, amended: there is no InvalidDependency failure path; the only
guard is that the dependency options offered for a field never include
the field itself, and whatever is selected (including an empty list, or
selections forming a cycle) is persisted unchanged together with the
conditional flag. -/
theorem C4_no_invalid_dependency_check :
    (∀ (allNames : List String) (ph : String), ph ∉ dependencyOptions allNames ph) ∧
    (∀ (old : FieldInfo) (t : String) (r : Bool) (ds : List String),
      configurePlaceholder old t r true ds =
        { type := t, required := r, is_conditional := true, dependent_on := Dep.list ds }) := by
  constructor
  · intro allNames ph h
    simp [dependencyOptions, List.mem_filter] at h
  · intro old t r ds
    rfl

/-- C4 witness: the self-exclusion instantiated at a concrete option
list. -/
theorem C4_witness : "b" ∉ dependencyOptions ["a", "b"] "b" :=
  C4_no_invalid_dependency_check.1 ["a", "b"] "b"

/-- C5: on a text where beta occurs before and after alpha, the pattern
scan finds the occurrences in text order with the duplicate, and the
`set(...)` the source then applies constrains its output only up to a
duplicate-free listing of the same members: both orders are admissible
listings, so first-occurrence order is not guaranteed by the code. -/
theorem C5_set_order_unspecified :
    findall_placeholders orderText = ["beta", "alpha", "beta"] ∧
    IsSetListing (findall_placeholders orderText) ["beta", "alpha"] ∧
    IsSetListing (findall_placeholders orderText) ["alpha", "beta"] := by
  refine ⟨by decide, ?_, ?_⟩ <;>
    exact ⟨by decide, by decide, by decide⟩

/-- C10: placeholder-name normalization strips every leading and
trailing delimiter character: wrapping any name in either surface
delimiter form yields the same form-data key as the bare name; every key
splits as delimiter-prefix, stripped core with non-delimiter boundary
characters, delimiter-suffix; and a name whose own text starts or ends
with a delimiter character also loses it. -/
theorem C10_strip_normalization :
    (∀ name : String,
      pyStrip ("$\x7b" ++ name ++ "\x7d") = pyStrip name ∧
      pyStrip ("\x7b" ++ name ++ "\x7d") = pyStrip name) ∧
    (∀ s : String, ∃ pre post,
      s.data = pre ++ (pyStrip s).data ++ post ∧ pre.all isDelim = true ∧
      post.all isDelim = true ∧
      (∀ c, (pyStrip s).data.head? = some c → isDelim c = false) ∧
      (∀ c, (pyStrip s).data.getLast? = some c → isDelim c = false)) ∧
    pyStrip "$full-name" = "full-name" ∧ pyStrip "full-name\x7d" = "full-name" := by
  refine ⟨?_, ?_, by decide, by decide⟩
  · intro name
    constructor
    · show String.mk (stripChars isDelim ("$\x7b" ++ (name ++ "\x7d")).data) = _
      rw [data_append, data_append]
      rw [stripChars_append_all_left isDelim _ _ (by decide)]
      rw [stripChars_append_all_right isDelim _ _ (by decide)]
      rfl
    · show String.mk (stripChars isDelim ("\x7b" ++ (name ++ "\x7d")).data) = _
      rw [data_append, data_append]
      rw [stripChars_append_all_left isDelim _ _ (by decide)]
      rw [stripChars_append_all_right isDelim _ _ (by decide)]
      rfl
  · intro s
    obtain ⟨pre, post, h1, h2, h3, h4, h5⟩ := stripChars_spec isDelim s.data
    exact ⟨pre, post, h1, h2, h3, h4, h5⟩

/-- C10 witness: the wrapping equalities instantiated at a concrete
name. -/
theorem C10_witness :
    pyStrip "$\x7bfull-name\x7d" = pyStrip "full-name" ∧
      pyStrip "\x7bfull-name\x7d" = pyStrip "full-name" := by
  have h := C10_strip_normalization.1 "full-name"
  exact ⟨h.1, h.2⟩

end LoeDoc
